import Mathlib

/-!
Shallow embedding of the glutin windowing library (backend selector, cocoa and
win32 event translation, window creation validation, cursor-state handling),
translated from `src/api/cocoa/mod.rs`, `src/api/win32/mod.rs`,
`src/api/win32/init.rs` and `src/platform/linux/api_dispatch.rs`.

Native calls (Objective-C messaging, Win32 API calls) are abstracted as
explicit outcome parameters; floating-point coordinate scaling is abstracted
by carrying already-computed integer coordinates on the native event record.
-/

namespace Glutin

/-- Pressed/released state of a key or button (`events::ElementState`). -/
inductive ElementState
  | Pressed
  | Released
deriving DecidableEq, Repr

/-- Mouse button (`events::MouseButton`); only Left/Right appear in the cocoa
translation under scrutiny. -/
inductive MouseButton
  | Left
  | Right
  | Middle
  | OtherButton (n : Nat)
deriving DecidableEq, Repr

/-- Gesture phase of a scroll event (`events::TouchPhase`). -/
inductive TouchPhase
  | Started
  | Moved
  | Ended
deriving DecidableEq, Repr

/-- Scroll delta (`events::MouseScrollDelta`); the f32 payload is abstracted as
integers, the claims never inspect the numeric values. -/
inductive MouseScrollDelta
  | LineDelta (x y : Int)
  | PixelDelta (x y : Int)
deriving DecidableEq, Repr

/-- Virtual key codes (`events::VirtualKeyCode`, module not under src).
Modelled from the spec: the four modifier keys named by the modifier-diffing
translator, plus an opaque constructor for every other key. -/
inductive VirtualKeyCode
  | LShift
  | LControl
  | LWin
  | LAlt
  | OtherKey (n : Nat)
deriving DecidableEq, Repr

/-- The unified event union. Modelled from the spec (the `Event` enum lives in
`src/events.rs`, not under src): window-closed, focus-changed, keyboard-input,
received-character, mouse-input, mouse-moved, mouse-wheel, touchpad-pressure,
awakened; constructor payloads follow the uses in `src/api/cocoa/mod.rs`. -/
inductive Event
  | Closed
  | Focused (focused : Bool)
  | KeyboardInput (state : ElementState) (scancode : Nat) (vkey : Option VirtualKeyCode)
  | ReceivedCharacter (c : Char)
  | MouseInput (state : ElementState) (button : MouseButton) (pos : Option (Int × Int))
  | MouseMoved (x y : Int)
  | MouseWheel (delta : MouseScrollDelta) (phase : TouchPhase) (pos : Option (Int × Int))
  | TouchpadPressure (pressure stage : Int)
  | Awakened
deriving DecidableEq, Repr

/-- The cocoa native event types matched by `NSEventToEvent`;
`NSOtherEventType` stands for every type falling into the catch-all arm. -/
inductive NSEventType
  | NSLeftMouseDown
  | NSLeftMouseUp
  | NSRightMouseDown
  | NSRightMouseUp
  | NSMouseMoved
  | NSLeftMouseDragged
  | NSOtherMouseDragged
  | NSRightMouseDragged
  | NSKeyDown
  | NSKeyUp
  | NSFlagsChanged
  | NSScrollWheel
  | NSEventTypePressure
  | NSApplicationDefined
  | NSOtherEventType (n : Nat)
deriving DecidableEq, Repr

/-- Subtype of an application-defined cocoa event; the proxy wakeup event is
posted with `NSApplicationActivatedEventType`. -/
inductive NSEventSubtype
  | NSApplicationActivatedEventType
  | NSOtherSubtype (n : Nat)
deriving DecidableEq, Repr

/-- Gesture phase flags of a cocoa scroll event. -/
inductive NSEventPhase
  | NSEventPhaseMayBegin
  | NSEventPhaseBegan
  | NSEventPhaseEnded
  | NSEventPhaseOther (n : Nat)
deriving DecidableEq, Repr

/-- The four modifier-key masks of `NSEventModifierFlags` consulted by the
flags-changed translation. -/
inductive NSEventModifierFlagsMask
  | NSShiftKeyMask
  | NSControlKeyMask
  | NSCommandKeyMask
  | NSAlternateKeyMask
deriving DecidableEq, Repr

/-- A snapshot of the modifier-flags bitmask of a native event, restricted to
the four masks the translation consults. -/
structure ModifierFlags where
  shift : Bool
  control : Bool
  command : Bool
  alternate : Bool
deriving DecidableEq, Repr

/-- `NSEventModifierFlags::contains` for each of the four masks. -/
def ModifierFlags.contains (f : ModifierFlags) : NSEventModifierFlagsMask → Bool
  | .NSShiftKeyMask => f.shift
  | .NSControlKeyMask => f.control
  | .NSCommandKeyMask => f.command
  | .NSAlternateKeyMask => f.alternate

/-- A cocoa native event record, holding exactly the accessors `NSEventToEvent`
reads. `mousePosition` abstracts `get_mouse_position` (float/HiDPI coordinate
math); `characters` is the decoded character payload of a key event. -/
structure NSEvent where
  eventType : NSEventType
  keyCode : Nat
  characters : List Char
  modifierFlags : ModifierFlags
  subtype : NSEventSubtype
  phase : NSEventPhase
  hasPreciseScrollingDeltas : Bool
  scrollingDeltaX : Int
  scrollingDeltaY : Int
  pressure : Int
  stage : Int
  mousePosition : Int × Int
deriving DecidableEq, Repr

/-- The four mutable statics `shift_pressed`, `ctrl_pressed`, `win_pressed`,
`alt_pressed` carrying the last-known state of each modifier key. -/
structure ModifierState where
  shift_pressed : Bool
  ctrl_pressed : Bool
  win_pressed : Bool
  alt_pressed : Bool
deriving DecidableEq, Repr

/-- The initial value of the four modifier statics (all `false`). -/
def initialModifierState : ModifierState := ⟨false, false, false, false⟩

/-- `Window::modifier_event`: diff one modifier key against the flags of the
native event; `keyCode as u8` is modelled as `% 256`. -/
def Window.modifier_event (event : NSEvent) (keymask : NSEventModifierFlagsMask)
    (key : VirtualKeyCode) (key_pressed : Bool) : Option Event :=
  if !key_pressed && event.modifierFlags.contains keymask then
    some (Event.KeyboardInput ElementState.Pressed (event.keyCode % 256) (some key))
  else if key_pressed && !(event.modifierFlags.contains keymask) then
    some (Event.KeyboardInput ElementState.Released (event.keyCode % 256) (some key))
  else
    none

/-- One `if modifier.is_some() { flag = !flag; events.push_back(..) }` step of
the `NSFlagsChanged` branch: the event pushed (if any) and the new value of the
corresponding mutable static. -/
def modifierStep (e : NSEvent) (keymask : NSEventModifierFlagsMask)
    (key : VirtualKeyCode) (key_pressed : Bool) : List Event × Bool :=
  match Window.modifier_event e keymask key key_pressed with
  | some ev => ([ev], !key_pressed)
  | none => ([], key_pressed)

/-- The `NSFlagsChanged` branch of `NSEventToEvent`: the events pushed onto the
local deque (shift, then control, then command, then alternate) and the new
values of the four modifier statics. -/
def flagsChangedEvents (e : NSEvent) (mods : ModifierState) : List Event × ModifierState :=
  let shiftStep := modifierStep e .NSShiftKeyMask .LShift mods.shift_pressed
  let ctrlStep := modifierStep e .NSControlKeyMask .LControl mods.ctrl_pressed
  let winStep := modifierStep e .NSCommandKeyMask .LWin mods.win_pressed
  let altStep := modifierStep e .NSAlternateKeyMask .LAlt mods.alt_pressed
  (shiftStep.1 ++ ctrlStep.1 ++ winStep.1 ++ altStep.1,
   ⟨shiftStep.2, ctrlStep.2, winStep.2, altStep.2⟩)

/-- The events generated by the `NSKeyDown` branch, in generation order: one
`ReceivedCharacter` per decoded character, then one `KeyboardInput` press. -/
def keyDownEvents (vkmap : Nat → Option VirtualKeyCode) (e : NSEvent) : List Event :=
  e.characters.map Event.ReceivedCharacter
    ++ [Event.KeyboardInput ElementState.Pressed (e.keyCode % 256) (vkmap e.keyCode)]

/-- Result of `NSEventToEvent`: the event returned to the iterator, the extra
events it extended the per-window pending queue with, and the new values of the
modifier statics. -/
structure TranslateResult where
  returned : Option Event
  queued : List Event
  mods : ModifierState
deriving DecidableEq, Repr

/-- `NSEventToEvent`, the cocoa native-event translation. A `none` argument
models a nil `nsevent`. `vkmap` abstracts `event::vkeycode_to_element` (that
module is not under src; the spec records only that key events carry an
optional virtual key). The `NSApp().sendEvent_` forwarding is a pure native
side effect and has no bearing on the produced events. -/
def NSEventToEvent (vkmap : Nat → Option VirtualKeyCode) (mods : ModifierState)
    (nsevent : Option NSEvent) : TranslateResult :=
  match nsevent with
  | none => ⟨none, [], mods⟩
  | some e =>
    match e.eventType with
    | .NSLeftMouseDown =>
        ⟨some (Event.MouseInput .Pressed .Left (some e.mousePosition)), [], mods⟩
    | .NSLeftMouseUp =>
        ⟨some (Event.MouseInput .Released .Left (some e.mousePosition)), [], mods⟩
    | .NSRightMouseDown =>
        ⟨some (Event.MouseInput .Pressed .Right (some e.mousePosition)), [], mods⟩
    | .NSRightMouseUp =>
        ⟨some (Event.MouseInput .Released .Right (some e.mousePosition)), [], mods⟩
    | .NSMouseMoved | .NSLeftMouseDragged | .NSOtherMouseDragged | .NSRightMouseDragged =>
        ⟨some (Event.MouseMoved e.mousePosition.1 e.mousePosition.2), [], mods⟩
    | .NSKeyDown =>
        let events := keyDownEvents vkmap e
        ⟨events.head?, events.tail, mods⟩
    | .NSKeyUp =>
        ⟨some (Event.KeyboardInput .Released (e.keyCode % 256) (vkmap e.keyCode)), [], mods⟩
    | .NSFlagsChanged =>
        let step := flagsChangedEvents e mods
        ⟨step.1.head?, step.1.tail, step.2⟩
    | .NSScrollWheel =>
        let delta := if e.hasPreciseScrollingDeltas then
            MouseScrollDelta.PixelDelta e.scrollingDeltaX e.scrollingDeltaY
          else
            MouseScrollDelta.LineDelta e.scrollingDeltaX e.scrollingDeltaY
        let phase := match e.phase with
          | .NSEventPhaseMayBegin | .NSEventPhaseBegan => TouchPhase.Started
          | .NSEventPhaseEnded => TouchPhase.Ended
          | _ => TouchPhase.Moved
        let mouse_position := match phase with
          | TouchPhase.Started => some e.mousePosition
          | _ => none
        ⟨some (Event.MouseWheel delta phase mouse_position), [], mods⟩
    | .NSEventTypePressure =>
        ⟨some (Event.TouchpadPressure e.pressure e.stage), [], mods⟩
    | .NSApplicationDefined =>
        match e.subtype with
        | .NSApplicationActivatedEventType => ⟨some Event.Awakened, [], mods⟩
        | .NSOtherSubtype _ => ⟨none, [], mods⟩
    | .NSOtherEventType _ => ⟨none, [], mods⟩

/-- The per-window session state the cocoa iterators consult: the pending FIFO
queue of the window delegate and the modifier statics. -/
structure CocoaWindowState where
  pending_events : List Event
  mods : ModifierState
deriving DecidableEq, Repr

/-- `PollEventsIterator::next` (cocoa): pop a pending event if one exists,
otherwise make one non-blocking dequeue from the native queue (`distantPast`
deadline: head if available, nil otherwise) and translate it; extras are pushed
onto the pending queue. Returns the produced event, the new window state, and
the rest of the native queue. -/
def pollNext (vkmap : Nat → Option VirtualKeyCode) (st : CocoaWindowState)
    (native : List NSEvent) : Option Event × CocoaWindowState × List NSEvent :=
  match st.pending_events with
  | ev :: rest => (some ev, ⟨rest, st.mods⟩, native)
  | [] =>
    let r := NSEventToEvent vkmap st.mods native.head?
    (r.returned, ⟨r.queued, r.mods⟩, native.tail)

/-- `WaitEventsIterator::next` (cocoa): pop a pending event if one exists,
otherwise block until the native source hands over an event (`distantFuture`
deadline), translate it, and turn a translation of nothing into `Awakened`.
`fetched` is the event the blocking call eventually returned (`none` = nil). -/
def waitNext (vkmap : Nat → Option VirtualKeyCode) (st : CocoaWindowState)
    (fetched : Option NSEvent) : Option Event × CocoaWindowState :=
  match st.pending_events with
  | ev :: rest => (some ev, ⟨rest, st.mods⟩)
  | [] =>
    let r := NSEventToEvent vkmap st.mods fetched
    match r.returned with
    | none => (some Event.Awakened, ⟨r.queued, r.mods⟩)
    | some ev => (some ev, ⟨r.queued, r.mods⟩)

/-- `PollEventsIterator::next` (win32): `events_receiver.try_recv().ok()` —
pop the head of the channel queue without blocking. -/
def win32PollNext (channel : List Event) : Option Event × List Event :=
  (channel.head?, channel.tail)

/-- `WaitEventsIterator::next` (win32): `events_receiver.recv().ok()`. The
blocking receive eventually returns either a delivered event or, once the
sender on the window thread is gone, a disconnection error that `.ok()` turns
into nothing; `received` is that outcome. -/
def win32WaitNext (received : Option Event) : Option Event :=
  received

/-- Fuel-driven iteration of `pollNext`, collecting the events the cocoa poll
iterator delivers across consecutive `next` calls. -/
def pollSeq (vkmap : Nat → Option VirtualKeyCode) (st : CocoaWindowState)
    (native : List NSEvent) : Nat → List Event
  | 0 => []
  | n + 1 =>
    match pollNext vkmap st native with
    | (some ev, st', native') => ev :: pollSeq vkmap st' native' n
    | (none, st', native') => pollSeq vkmap st' native' n

/-- The events generated by translating one native event: the returned event
followed by the queued extras, in generation order. -/
def generatedEvents (vkmap : Nat → Option VirtualKeyCode) (mods : ModifierState)
    (e : NSEvent) : List Event :=
  let r := NSEventToEvent vkmap mods (some e)
  r.returned.toList ++ r.queued

/-- Total number of events generated by a list of key-down native events. -/
def totalKeyDownGen (es : List NSEvent) : Nat :=
  (es.map (fun e => e.characters.length + 1)).sum

/-- Process a sequence of modifier-flag snapshots through the flags-changed
translation, collecting the per-snapshot event batches. -/
def processFlagsSeq (mods : ModifierState) : List NSEvent → List (List Event)
  | [] => []
  | e :: rest =>
    let step := flagsChangedEvents e mods
    step.1 :: processFlagsSeq step.2 rest

/-- The four modifier keys tracked by the diffing translator. -/
inductive ModKey
  | shiftKey
  | ctrlKey
  | winKey
  | altKey
deriving DecidableEq, Repr

/-- The flag of one modifier key in a flags snapshot. -/
def flagOf (f : ModifierFlags) : ModKey → Bool
  | .shiftKey => f.shift
  | .ctrlKey => f.control
  | .winKey => f.command
  | .altKey => f.alternate

/-- The tracked pressed state of one modifier key. -/
def stateOf (m : ModifierState) : ModKey → Bool
  | .shiftKey => m.shift_pressed
  | .ctrlKey => m.ctrl_pressed
  | .winKey => m.win_pressed
  | .altKey => m.alt_pressed

/-- The virtual key the translator emits for one modifier key. -/
def vkOf : ModKey → VirtualKeyCode
  | .shiftKey => .LShift
  | .ctrlKey => .LControl
  | .winKey => .LWin
  | .altKey => .LAlt

/-- Count the keyboard events of a batch with the given state and virtual key. -/
def countKey (evs : List Event) (s : ElementState) (k : VirtualKeyCode) : Nat :=
  (evs.filter (fun ev =>
    match ev with
    | Event.KeyboardInput st _ (some vk) => decide (st = s ∧ vk = k)
    | _ => false)).length

/-- The flag of modifier `k` in snapshot `i` of a sequence (`false` past the
end). -/
def flagAt (es : List NSEvent) (i : Nat) (k : ModKey) : Bool :=
  match es[i]? with
  | some e => flagOf e.modifierFlags k
  | none => false

/-- The flag of modifier `k` in the snapshot preceding index `i` of a sequence:
the initial all-released state before index 0, snapshot `i - 1` afterwards. -/
def prevFlagAt (es : List NSEvent) (i : Nat) (k : ModKey) : Bool :=
  match i with
  | 0 => false
  | j + 1 => flagAt es j k

/-- The modifier-state value whose tracked keys mirror a flags snapshot. -/
def stateOfFlags (f : ModifierFlags) : ModifierState :=
  ⟨f.shift, f.control, f.command, f.alternate⟩

/-- The tracked state of modifier `k` before processing snapshot `i`, starting
from `mods`: `mods` itself before index 0, snapshot `i - 1` afterwards. -/
def prevStateAt (es : List NSEvent) (mods : ModifierState) (i : Nat) (k : ModKey) : Bool :=
  match i with
  | 0 => stateOf mods k
  | j + 1 => flagAt es j k

/-- The `XNotSupported` error produced when the x11 backend cannot start (that
module is not under src); abstracted as its message. -/
structure XNotSupported where
  message : String
deriving DecidableEq, Repr

/-- The `Backend` enum of the linux api dispatcher: a live x11 connection
(abstracted as an id) or the recorded initialization failure. -/
inductive Backend
  | X (connection : Nat)
  | Error (e : XNotSupported)
deriving DecidableEq, Repr

/-- Outcome of `XConnection::new` (the x11 connection constructor, not under
src), abstracted as an explicit parameter. -/
inductive XConnectionResult
  | ok (connection : Nat)
  | err (e : XNotSupported)
deriving DecidableEq, Repr

/-- The initializer body of the `BACKEND` lazy static. -/
def mkBackend : XConnectionResult → Backend
  | .ok x => Backend.X x
  | .err e => Backend.Error e

/-- Dereferencing the `BACKEND` lazy static: return the cached value if the
initializer already ran, otherwise run it once and cache the result. -/
def backendForce (cache : Option Backend) (init : XConnectionResult) :
    Backend × Option Backend :=
  match cache with
  | some b => (b, some b)
  | none =>
    let b := mkBackend init
    (b, some b)

/-- The creation error taxonomy, from the variants the embedded files use. -/
inductive CreationError
  | OsError (msg : String)
  | NotSupported
  | NoAvailablePixelFormat
  | RobustnessNotSupported
  | NoBackendAvailable (e : XNotSupported)
deriving DecidableEq, Repr

/-- The linux dispatcher window: a wrapped x11 window (abstracted as an id). -/
inductive LinuxWindow
  | X (w : Nat)
deriving DecidableEq, Repr

/-- `Window::new` of the linux api dispatcher, dispatching on the cached
backend; `x11New` abstracts `x11::Window::new` (not under src). -/
def linuxWindowNew (backend : Backend) (x11New : Except CreationError Nat) :
    Except CreationError LinuxWindow :=
  match backend with
  | Backend.X _ => x11New.map LinuxWindow.X
  | Backend.Error e => Except.error (CreationError.NoBackendAvailable e)

/-- Robustness policy of the requested GL attributes. The enum lives in
`src/lib.rs` (not under src); modelled from the spec with the two explicitly
unsupported modes matched by cocoa `Window::new` plus the remaining modes. -/
inductive Robustness
  | NotRobust
  | TryRobustNoResetNotification
  | TryRobustLoseContextOnReset
  | RobustNoResetNotification
  | RobustLoseContextOnReset
deriving DecidableEq, Repr

/-- The GL attributes cocoa `Window::new` inspects: the optional sharing
request (abstracted to its presence), the robustness policy, vsync. -/
structure GlAttributes where
  sharing : Option Unit
  robustness : Robustness
  vsync : Bool
deriving DecidableEq, Repr

/-- The window attributes, from the fields the embedded files read. Modelled
from the spec for the fields themselves (`WindowAttributes` lives in
`src/lib.rs`, not under src); the monitor and icon payloads are abstracted. -/
structure WindowAttributes where
  dimensions : Option (Nat × Nat)
  min_dimensions : Option (Nat × Nat)
  max_dimensions : Option (Nat × Nat)
  monitor : Option Nat
  title : String
  visible : Bool
  transparent : Bool
  decorations : Bool
  icon : Option String
deriving DecidableEq, Repr

/-- The negotiated pixel format descriptor. -/
structure PixelFormat where
  hardware_accelerated : Bool
  color_bits : Nat
  alpha_bits : Nat
  depth_bits : Nat
  stencil_bits : Nat
  stereoscopy : Bool
  double_buffer : Bool
  multisampling : Option Nat
  srgb : Bool
deriving DecidableEq, Repr

/-- The native objects cocoa `Window::new` allocates, in acquisition order. -/
inductive NativeResource
  | app
  | window
  | view
  | context
deriving DecidableEq, Repr

/-- Outcome of a construction that can also die on an assertion or an
`unimplemented` macro invocation rather than return. -/
inductive NewOutcome (α : Type)
  | ok (w : α)
  | err (e : CreationError)
  | panicked
deriving DecidableEq, Repr

/-- Outcomes of the native calls cocoa `Window::new` makes, abstracted as
explicit parameters: whether `NSApp()`, the `NSWindow` and the `NSView` come
back non-nil, and the result of `create_context`. -/
structure CocoaNativeOutcomes where
  create_app : Bool
  create_window : Bool
  create_view : Bool
  create_context : Except CreationError PixelFormat
deriving Repr

/-- Cocoa `Window::new`: sharing and min/max-dimension validation (both die in
a panic: `unimplemented` and `assert`), the robustness check, then the native
allocations in order. Returns the outcome together with the list of native
objects allocated on the way, so that allocation-free failure is visible. -/
def cocoaWindowNew (win_attribs : WindowAttributes) (opengl : GlAttributes)
    (natives : CocoaNativeOutcomes) : NewOutcome PixelFormat × List NativeResource :=
  if opengl.sharing.isSome then
    (NewOutcome.panicked, [])
  else if win_attribs.min_dimensions.isSome then
    (NewOutcome.panicked, [])
  else if win_attribs.max_dimensions.isSome then
    (NewOutcome.panicked, [])
  else
    match opengl.robustness with
    | Robustness.RobustNoResetNotification | Robustness.RobustLoseContextOnReset =>
        (NewOutcome.err CreationError.RobustnessNotSupported, [])
    | _ =>
      if !natives.create_app then
        (NewOutcome.err (CreationError.OsError "Couldnt create NSApplication"), [])
      else if !natives.create_window then
        (NewOutcome.err (CreationError.OsError "Couldnt create NSWindow"),
         [NativeResource.app])
      else if !natives.create_view then
        (NewOutcome.err (CreationError.OsError "Couldnt create NSView"),
         [NativeResource.app, NativeResource.window])
      else
        match natives.create_context with
        | Except.error _ =>
            (NewOutcome.err (CreationError.OsError "Couldnt create OpenGL context"),
             [NativeResource.app, NativeResource.window, NativeResource.view])
        | Except.ok pf =>
            (NewOutcome.ok pf,
             [NativeResource.app, NativeResource.window, NativeResource.view,
              NativeResource.context])

/-- The content frame size cocoa `create_window` hands to
`initWithContentRect`: the screen frame when a target monitor is given,
otherwise the requested dimensions with the 800x600 default. -/
def cocoaCreateWindowFrame (attrs : WindowAttributes) (screenFrame : Nat × Nat) :
    Nat × Nat :=
  match attrs.monitor with
  | some _ => screenFrame
  | none => attrs.dimensions.getD (800, 600)

/-- A Win32 RECT. -/
structure Rect where
  left : Int
  top : Int
  right : Int
  bottom : Int
deriving DecidableEq, Repr

/-- The width/height arguments win32 `init` passes to `CreateWindowExW`:
the adjusted rect when a monitor or explicit dimensions are present, otherwise
`none`, standing for `CW_USEDEFAULT` (a system-chosen size).
`adjustWindowRect` abstracts `AdjustWindowRectEx` at the computed style. -/
def win32CreateWindowSize (window : WindowAttributes) (monitorPos : Int × Int)
    (adjustWindowRect : Rect → Rect) : Option (Int × Int) :=
  let dims := window.dimensions.getD (1024, 768)
  let rect : Rect := ⟨0, 0, Int.ofNat dims.1, Int.ofNat dims.2⟩
  let rect := match window.monitor with
    | some _ =>
        Rect.mk (rect.left + monitorPos.1) (rect.top + monitorPos.2)
          (rect.right + monitorPos.1) (rect.bottom + monitorPos.2)
    | none => rect
  let rect := adjustWindowRect rect
  if window.monitor.isSome || window.dimensions.isSome then
    some (rect.right - rect.left, rect.bottom - rect.top)
  else
    none

/-- Outcomes of the native calls win32 `init` makes, abstracted as explicit
parameters. -/
structure Win32NativeOutcomes where
  switchFullscreen : Bool
  createWindow : Bool
  getDC : Bool
  createContext : Except CreationError Unit
deriving Repr

/-- Win32 `init`: fullscreen switch when a monitor is requested, window and DC
creation, then context creation. The success payload is the size argument pair
handed to `CreateWindowExW`, recording how the requested dimensions were used;
`none` stands for `CW_USEDEFAULT`. -/
def win32Init (window : WindowAttributes) (monitorPos : Int × Int)
    (adjustWindowRect : Rect → Rect) (natives : Win32NativeOutcomes) :
    NewOutcome (Option (Int × Int)) :=
  if window.monitor.isSome && !natives.switchFullscreen then
    NewOutcome.err (CreationError.OsError "ChangeDisplaySettings failed")
  else if !natives.createWindow then
    NewOutcome.err (CreationError.OsError "CreateWindowEx function failed")
  else if !natives.getDC then
    NewOutcome.err (CreationError.OsError "GetDC function failed")
  else
    match natives.createContext with
    | Except.error e => NewOutcome.err e
    | Except.ok _ =>
        NewOutcome.ok (win32CreateWindowSize window monitorPos adjustWindowRect)

/-- Cursor capture mode (`CursorState` in `src/lib.rs`, modelled from the
spec: normal / hidden / grabbed). -/
inductive CursorState
  | Normal
  | Hide
  | Grab
deriving DecidableEq, Repr

/-- Outcomes of the native calls win32 `set_cursor_state` makes. -/
structure CursorNativeOutcomes where
  getClientRect : Bool
  clipCursorRect : Bool
  clipCursorNull : Bool
deriving DecidableEq, Repr

/-- Result of win32 `set_cursor_state`; the `(Hide, Grab)` transition falls
into an `unimplemented` arm and panics. -/
inductive CursorResult
  | ok
  | err (msg : String)
  | panicked
deriving DecidableEq, Repr

/-- Whether a cursor-state result is the error case. -/
def CursorResult.isErr : CursorResult → Bool
  | .err _ => true
  | _ => false

/-- Win32 `Window::set_cursor_state`: dispatch on the requested state and the
`cursor_state` field of the shared `WindowState`; returns the result and the
new value of `cursor_state` (unchanged on every early error return). -/
def set_cursor_state (state current : CursorState) (natives : CursorNativeOutcomes) :
    CursorResult × CursorState :=
  match state, current with
  | CursorState.Normal, CursorState.Normal => (CursorResult.ok, current)
  | CursorState.Hide, CursorState.Hide => (CursorResult.ok, current)
  | CursorState.Grab, CursorState.Grab => (CursorResult.ok, current)
  | CursorState.Hide, CursorState.Normal => (CursorResult.ok, CursorState.Hide)
  | CursorState.Normal, CursorState.Hide => (CursorResult.ok, CursorState.Normal)
  | CursorState.Grab, CursorState.Normal | CursorState.Grab, CursorState.Hide =>
      if !natives.getClientRect then
        (CursorResult.err "GetWindowRect failed", current)
      else if !natives.clipCursorRect then
        (CursorResult.err "ClipCursor failed", current)
      else
        (CursorResult.ok, CursorState.Grab)
  | CursorState.Normal, CursorState.Grab =>
      if !natives.clipCursorNull then
        (CursorResult.err "ClipCursor failed", current)
      else
        (CursorResult.ok, CursorState.Normal)
  | CursorState.Hide, CursorState.Grab => (CursorResult.panicked, current)

/-- A native event record of a type the translation maps to no logical event
(the catch-all arm); not an application-defined (wakeup) event. -/
def strayNSEvent : NSEvent :=
  ⟨NSEventType.NSOtherEventType 0, 0, [], ⟨false, false, false, false⟩,
   NSEventSubtype.NSOtherSubtype 0, NSEventPhase.NSEventPhaseOther 0,
   false, 0, 0, 0, 0, (0, 0)⟩

/-- A concrete key-down native event whose character payload decodes to two
characters. -/
def kdEvent : NSEvent :=
  ⟨NSEventType.NSKeyDown, 13, [Char.ofNat 97, Char.ofNat 98],
   ⟨false, false, false, false⟩, NSEventSubtype.NSOtherSubtype 0,
   NSEventPhase.NSEventPhaseOther 0, false, 0, 0, 0, 0, (0, 0)⟩

/-- A concrete flags-changed native event with only the shift flag on. -/
def flagsOnEvent : NSEvent :=
  ⟨NSEventType.NSFlagsChanged, 56, [], ⟨true, false, false, false⟩,
   NSEventSubtype.NSOtherSubtype 0, NSEventPhase.NSEventPhaseOther 0,
   false, 0, 0, 0, 0, (0, 0)⟩

/-- A concrete window-attributes record with no dimensions, no min/max sizes
and no target monitor. -/
def plainWindowAttributes : WindowAttributes :=
  ⟨none, none, none, none, "glutin", true, false, true, none⟩

/-- Claim C5: the backend is computed at most once per process (forcing the
lazy static a second time returns the cached backend and never re-runs the
initializer), an initialization failure is cached as the error-backend value,
and every subsequent window creation against it returns the creation error
carrying the backend-specific cause (no panic, no retry). -/
theorem claim_C5 :
    (∀ (b : Backend) (init : XConnectionResult), backendForce (some b) init = (b, some b)) ∧
    (∀ init : XConnectionResult,
      backendForce none init = (mkBackend init, some (mkBackend init))) ∧
    (∀ e : XNotSupported, mkBackend (XConnectionResult.err e) = Backend.Error e) ∧
    (∀ (e : XNotSupported) (x11New : Except CreationError Nat),
      linuxWindowNew (Backend.Error e) x11New =
        Except.error (CreationError.NoBackendAvailable e)) := by
  refine ⟨fun b init => rfl, fun init => rfl, fun e => rfl, fun e x11New => rfl⟩

/-- Claim C9: the native-event translation is a total function; a nil native
event record yields no event, and a native event mapping to no logical event
(the catch-all event type, or an application-defined event of a foreign
subtype) yields nothing, silently, with no queued extras and no state change. -/
theorem claim_C9 :
    ∀ (vkmap : Nat → Option VirtualKeyCode) (mods : ModifierState),
      NSEventToEvent vkmap mods none = ⟨none, [], mods⟩ ∧
      (∀ (e : NSEvent) (n : Nat), e.eventType = NSEventType.NSOtherEventType n →
        NSEventToEvent vkmap mods (some e) = ⟨none, [], mods⟩) ∧
      (∀ (e : NSEvent) (n : Nat), e.eventType = NSEventType.NSApplicationDefined →
        e.subtype = NSEventSubtype.NSOtherSubtype n →
        NSEventToEvent vkmap mods (some e) = ⟨none, [], mods⟩) := by
  intro vkmap mods
  refine ⟨rfl, ?_, ?_⟩
  · intro e n h
    simp [NSEventToEvent, h]
  · intro e n h1 h2
    simp [NSEventToEvent, h1, h2]

/-- Witness for C9 at a concrete unmapped native event. -/
theorem claim_C9_witness :
    NSEventToEvent (fun _ => none) initialModifierState (some strayNSEvent) =
      ⟨none, [], initialModifierState⟩ :=
  (claim_C9 (fun _ => none) initialModifierState).2.1 strayNSEvent 0 rfl

/-- Claim C10: win32 `set_cursor_state` is error-atomic on the `cursor_state`
field: an error return leaves it unchanged, a success return leaves it equal to
the requested state. -/
theorem claim_C10 :
    ∀ (state current : CursorState) (natives : CursorNativeOutcomes),
      ((set_cursor_state state current natives).1.isErr = true →
        (set_cursor_state state current natives).2 = current) ∧
      ((set_cursor_state state current natives).1 = CursorResult.ok →
        (set_cursor_state state current natives).2 = state) := by
  intro s c n
  rcases n with ⟨g, cr, cn⟩
  cases s <;> cases c <;> cases g <;> cases cr <;> cases cn <;>
    simp [set_cursor_state, CursorResult.isErr]

/-- Witness for C10: a failing grab leaves the state unchanged, and a
successful grab sets it to the requested state. -/
theorem claim_C10_witness :
    (set_cursor_state CursorState.Grab CursorState.Normal ⟨false, true, true⟩).2 =
        CursorState.Normal ∧
    (set_cursor_state CursorState.Grab CursorState.Normal ⟨true, true, true⟩).2 =
        CursorState.Grab :=
  ⟨(claim_C10 CursorState.Grab CursorState.Normal ⟨false, true, true⟩).1 (by decide),
   (claim_C10 CursorState.Grab CursorState.Normal ⟨true, true, true⟩).2 (by decide)⟩

/-- Claim C2: the poll iterator first returns a queued pending event if one
exists (leaving the native source untouched), otherwise makes exactly one
non-blocking dequeue of the native source, and returns nothing when no native
event and no queued event exists; the win32 poll is a plain non-blocking
channel pop. (Not blocking is structural: the native check is modelled as the
total head-dequeue a `distantPast` deadline performs.) -/
theorem claim_C2 :
    ∀ (vkmap : Nat → Option VirtualKeyCode) (st : CocoaWindowState)
      (native : List NSEvent) (channel : List Event),
      (∀ ev rest, st.pending_events = ev :: rest →
        pollNext vkmap st native = (some ev, ⟨rest, st.mods⟩, native)) ∧
      (st.pending_events = [] →
        (pollNext vkmap st native).2.2 = native.tail ∧
        (native = [] → (pollNext vkmap st native).1 = none)) ∧
      win32PollNext channel = (channel.head?, channel.tail) := by
  intro vkmap st native channel
  refine ⟨?_, ?_, rfl⟩
  · intro ev rest h
    simp [pollNext, h]
  · intro h
    constructor
    · simp [pollNext, h]
    · intro hn
      simp [pollNext, h, hn, NSEventToEvent]

/-- Witness for C2 at concrete inputs: a queued event is delivered first, and
an empty window yields nothing. -/
theorem claim_C2_witness :
    pollNext (fun _ => none) ⟨[Event.Closed], initialModifierState⟩ [] =
        (some Event.Closed, ⟨[], initialModifierState⟩, []) ∧
    (pollNext (fun _ => none) ⟨[], initialModifierState⟩ []).1 = none :=
  ⟨(claim_C2 (fun _ => none) ⟨[Event.Closed], initialModifierState⟩ [] []).1
      Event.Closed [] rfl,
   ((claim_C2 (fun _ => none) ⟨[], initialModifierState⟩ [] []).2.1 rfl).2 rfl⟩

/-- Counterexample to C1 as stated: the blocking wait ended with a real native
event (not a proxy wakeup — its type is not even application-defined), yet the
iterator returns the dedicated awakened event, because any native event that
translates to no logical event is folded into `Awakened`. -/
theorem claim_C1_counterexample :
    (waitNext (fun _ => none) ⟨[], initialModifierState⟩ (some strayNSEvent)).1 =
        some Event.Awakened ∧
    strayNSEvent.eventType ≠ NSEventType.NSApplicationDefined := by
  exact ⟨rfl, by decide⟩

/-- Claim C1 (amended): on the cocoa backend every `wait_events` call returns
at least one event; when the pending queue is empty, it returns the awakened
event if and only if the dequeued native event either translates to the
awakened event (the proxy-wakeup case) or translates to no logical event at
all (a nil record or any unmapped native event). -/
theorem claim_C1_amended :
    ∀ (vkmap : Nat → Option VirtualKeyCode) (st : CocoaWindowState)
      (fetched : Option NSEvent),
      (waitNext vkmap st fetched).1.isSome = true ∧
      (st.pending_events = [] →
        ((waitNext vkmap st fetched).1 = some Event.Awakened ↔
          (NSEventToEvent vkmap st.mods fetched).returned = none ∨
          (NSEventToEvent vkmap st.mods fetched).returned = some Event.Awakened)) := by
  intro vkmap st fetched
  constructor
  · rcases h : st.pending_events with _ | ⟨ev, rest⟩
    · rcases hr : (NSEventToEvent vkmap st.mods fetched).returned with _ | ev <;>
        simp [waitNext, h, hr]
    · simp [waitNext, h]
  · intro h
    rcases hr : (NSEventToEvent vkmap st.mods fetched).returned with _ | ev <;>
      simp [waitNext, h, hr]

/-- Witness for C1 (amended) at a concrete input: a nil fetch yields the
awakened event. -/
theorem claim_C1_witness :
    (waitNext (fun _ => none) ⟨[], initialModifierState⟩ none).1.isSome = true ∧
    ((waitNext (fun _ => none) ⟨[], initialModifierState⟩ none).1 =
        some Event.Awakened ↔
      (NSEventToEvent (fun _ => none) initialModifierState none).returned = none ∨
      (NSEventToEvent (fun _ => none) initialModifierState none).returned =
        some Event.Awakened) :=
  ⟨(claim_C1_amended (fun _ => none) ⟨[], initialModifierState⟩ none).1,
   (claim_C1_amended (fun _ => none) ⟨[], initialModifierState⟩ none).2 rfl⟩

/-- Counterexample to C6 as stated: a creation request whose GL attributes ask
for an unsupported robustness mode but also ask for context sharing dies in
the sharing panic first — construction does not return the robustness error. -/
theorem claim_C6_counterexample :
    (cocoaWindowNew plainWindowAttributes
        ⟨some (), Robustness.RobustNoResetNotification, true⟩
        ⟨true, true, true, Except.error CreationError.NotSupported⟩).1 =
      NewOutcome.panicked ∧
    (NewOutcome.panicked : NewOutcome PixelFormat) ≠
      NewOutcome.err CreationError.RobustnessNotSupported := by
  exact ⟨rfl, by decide⟩

/-- Claim C6 (amended): provided the request does not also trip an earlier
panic (no sharing request, no min/max dimensions), asking for the
no-reset-notification or lose-context-on-reset robustness mode makes cocoa
construction return the robustness-not-supported error with no native
application, window, view or context allocated. -/
theorem claim_C6_amended :
    ∀ (win_attribs : WindowAttributes) (opengl : GlAttributes)
      (natives : CocoaNativeOutcomes),
      opengl.sharing = none →
      win_attribs.min_dimensions = none →
      win_attribs.max_dimensions = none →
      (opengl.robustness = Robustness.RobustNoResetNotification ∨
       opengl.robustness = Robustness.RobustLoseContextOnReset) →
      cocoaWindowNew win_attribs opengl natives =
        (NewOutcome.err CreationError.RobustnessNotSupported, []) := by
  intro wa gl n hs hmin hmax hrob
  rcases hrob with h | h <;> simp [cocoaWindowNew, hs, hmin, hmax, h]

/-- Witness for C6 (amended) at a concrete request. -/
theorem claim_C6_witness :
    cocoaWindowNew plainWindowAttributes
        ⟨none, Robustness.RobustLoseContextOnReset, true⟩
        ⟨true, true, true, Except.error CreationError.NotSupported⟩ =
      (NewOutcome.err CreationError.RobustnessNotSupported, []) :=
  claim_C6_amended plainWindowAttributes
    ⟨none, Robustness.RobustLoseContextOnReset, true⟩
    ⟨true, true, true, Except.error CreationError.NotSupported⟩
    rfl rfl rfl (Or.inr rfl)

/-- Counterexample to C7 as stated: on the win32 backend a request without
dimensions does not produce an 800x600 window; `init` passes `CW_USEDEFAULT`
(modelled as `none`) for the size, leaving it to the system. -/
theorem claim_C7_counterexample :
    win32CreateWindowSize plainWindowAttributes (0, 0) (fun r => r) = none ∧
    (none : Option (Int × Int)) ≠ some (800, 600) := by
  exact ⟨rfl, by decide⟩

/-- Claim C7 (amended): when the dimensions attribute is absent (and no target
monitor forces fullscreen), the cocoa backend creates the window with the
default 800x600 content frame, while the win32 backend passes `CW_USEDEFAULT`
and lets the system choose the size. -/
theorem claim_C7_amended :
    ∀ (attrs : WindowAttributes) (screenFrame : Nat × Nat) (monitorPos : Int × Int)
      (adjustWindowRect : Rect → Rect),
      attrs.dimensions = none → attrs.monitor = none →
      cocoaCreateWindowFrame attrs screenFrame = (800, 600) ∧
      win32CreateWindowSize attrs monitorPos adjustWindowRect = none := by
  intro attrs sf mp adj hd hm
  constructor
  · simp [cocoaCreateWindowFrame, hm, hd]
  · simp [win32CreateWindowSize, hm, hd]

/-- Witness for C7 (amended) at a concrete request. -/
theorem claim_C7_witness :
    cocoaCreateWindowFrame plainWindowAttributes (1920, 1080) = (800, 600) ∧
    win32CreateWindowSize plainWindowAttributes (0, 0) (fun r => r) = none :=
  claim_C7_amended plainWindowAttributes (1920, 1080) (0, 0) (fun r => r) rfl rfl

/-- Counterexample to C8 as stated: a cocoa creation request with a minimum
size set dies in an assertion (a panic), it does not return a creation error. -/
theorem claim_C8_counterexample :
    (cocoaWindowNew
        ⟨none, some (100, 100), none, none, "glutin", true, false, true, none⟩
        ⟨none, Robustness.NotRobust, true⟩
        ⟨true, true, true, Except.error CreationError.NotSupported⟩).1 =
      NewOutcome.panicked := rfl

/-- Claim C8 (amended): a min/max size request is not rejected with an error:
on cocoa, construction panics via the `assert` (when the earlier sharing panic
is not tripped), and on win32 the attributes are silently ignored — `init`
behaves identically whatever their values. -/
theorem claim_C8_amended :
    ∀ (win_attribs : WindowAttributes) (opengl : GlAttributes)
      (natives : CocoaNativeOutcomes) (monitorPos : Int × Int)
      (adjustWindowRect : Rect → Rect) (wnatives : Win32NativeOutcomes)
      (mn mx : Option (Nat × Nat)),
      opengl.sharing = none →
      (win_attribs.min_dimensions.isSome = true ∨
       win_attribs.max_dimensions.isSome = true) →
      (cocoaWindowNew win_attribs opengl natives).1 = NewOutcome.panicked ∧
      win32Init { win_attribs with min_dimensions := mn, max_dimensions := mx }
          monitorPos adjustWindowRect wnatives =
        win32Init win_attribs monitorPos adjustWindowRect wnatives := by
  intro wa gl n mp adj wn mn mx hs hmm
  constructor
  · rcases hmm with h | h
    · simp [cocoaWindowNew, hs, h]
    · rcases hmin : wa.min_dimensions with _ | v <;>
        simp [cocoaWindowNew, hs, hmin, h]
  · rcases wa with ⟨d, mi, ma, mo, t, v, tr, de, ic⟩
    simp [win32Init, win32CreateWindowSize]

/-- Witness for C8 (amended) at a concrete request. -/
theorem claim_C8_witness :
    (cocoaWindowNew
        ⟨none, some (100, 100), none, none, "glutin", true, false, true, none⟩
        ⟨none, Robustness.NotRobust, true⟩
        ⟨true, true, true, Except.error CreationError.NotSupported⟩).1 =
      NewOutcome.panicked ∧
    win32Init { (⟨none, some (100, 100), none, none, "glutin", true, false, true,
          none⟩ : WindowAttributes) with
        min_dimensions := some (1, 1), max_dimensions := some (2, 2) }
        (0, 0) (fun r => r) ⟨true, true, true, Except.ok ()⟩ =
      win32Init
        ⟨none, some (100, 100), none, none, "glutin", true, false, true, none⟩
        (0, 0) (fun r => r) ⟨true, true, true, Except.ok ()⟩ :=
  claim_C8_amended
    ⟨none, some (100, 100), none, none, "glutin", true, false, true, none⟩
    ⟨none, Robustness.NotRobust, true⟩
    ⟨true, true, true, Except.error CreationError.NotSupported⟩
    (0, 0) (fun r => r) ⟨true, true, true, Except.ok ()⟩
    (some (1, 1)) (some (2, 2)) rfl (Or.inl rfl)

theorem countKey_append (a b : List Event) (s : ElementState) (k : VirtualKeyCode) :
    countKey (a ++ b) s k = countKey a s k + countKey b s k := by
  simp [countKey, List.filter_append]

theorem modifierStep_snd (e : NSEvent) (m : NSEventModifierFlagsMask)
    (key : VirtualKeyCode) (p : Bool) :
    (modifierStep e m key p).2 = e.modifierFlags.contains m := by
  cases hc : e.modifierFlags.contains m <;> cases p <;>
    simp [modifierStep, Window.modifier_event, hc]

theorem modifierStep_count_self (e : NSEvent) (m : NSEventModifierFlagsMask)
    (key : VirtualKeyCode) (p : Bool) (s : ElementState) :
    countKey (modifierStep e m key p).1 s key =
      if (s = ElementState.Pressed ∧ p = false ∧ e.modifierFlags.contains m = true) ∨
         (s = ElementState.Released ∧ p = true ∧ e.modifierFlags.contains m = false)
      then 1 else 0 := by
  cases hc : e.modifierFlags.contains m <;> cases p <;> cases s <;>
    simp [modifierStep, Window.modifier_event, hc, countKey]

theorem modifierStep_count_other (e : NSEvent) (m : NSEventModifierFlagsMask)
    (key k : VirtualKeyCode) (p : Bool) (s : ElementState) (hk : ¬ k = key) :
    countKey (modifierStep e m key p).1 s k = 0 := by
  have hk2 : ¬ key = k := fun h => hk h.symm
  cases hc : e.modifierFlags.contains m <;> cases p <;>
    simp [modifierStep, Window.modifier_event, hc, countKey, hk2]

theorem flagsChanged_snd (e : NSEvent) (mods : ModifierState) :
    (flagsChangedEvents e mods).2 = stateOfFlags e.modifierFlags := by
  simp [flagsChangedEvents, stateOfFlags, modifierStep_snd, ModifierFlags.contains]

theorem flagsChanged_count (e : NSEvent) (mods : ModifierState) (k : ModKey)
    (s : ElementState) :
    countKey (flagsChangedEvents e mods).1 s (vkOf k) =
      if (s = ElementState.Pressed ∧ stateOf mods k = false ∧
            flagOf e.modifierFlags k = true) ∨
         (s = ElementState.Released ∧ stateOf mods k = true ∧
            flagOf e.modifierFlags k = false)
      then 1 else 0 := by
  cases k <;>
    simp [flagsChangedEvents, countKey_append, modifierStep_count_self,
      modifierStep_count_other, vkOf, stateOf, flagOf, ModifierFlags.contains]

theorem stateOf_stateOfFlags (f : ModifierFlags) (k : ModKey) :
    stateOf (stateOfFlags f) k = flagOf f k := by
  cases k <;> rfl

theorem flagAt_cons_succ (e : NSEvent) (rest : List NSEvent) (j : Nat) (k : ModKey) :
    flagAt (e :: rest) (j + 1) k = flagAt rest j k := by
  simp [flagAt]

theorem prevStateAt_cons (e : NSEvent) (rest : List NSEvent) (mods : ModifierState)
    (j : Nat) (k : ModKey) :
    prevStateAt (e :: rest) mods (j + 1) k =
      prevStateAt rest (stateOfFlags e.modifierFlags) j k := by
  cases j with
  | zero => simp [prevStateAt, flagAt, stateOf_stateOfFlags]
  | succ m => simp [prevStateAt, flagAt_cons_succ]

theorem processFlagsSeq_count (es : List NSEvent) :
    ∀ (mods : ModifierState) (i : Nat) (k : ModKey) (s : ElementState), i < es.length →
      countKey ((processFlagsSeq mods es)[i]?.getD []) s (vkOf k) =
        if (s = ElementState.Pressed ∧ prevStateAt es mods i k = false ∧
              flagAt es i k = true) ∨
           (s = ElementState.Released ∧ prevStateAt es mods i k = true ∧
              flagAt es i k = false)
        then 1 else 0 := by
  induction es with
  | nil =>
    intro mods i k s hi
    simp at hi
  | cons e rest ih =>
    intro mods i k s hi
    cases i with
    | zero =>
      simpa [processFlagsSeq, prevStateAt, flagAt] using flagsChanged_count e mods k s
    | succ j =>
      have hj : j < rest.length := by simpa using hi
      have h := ih (stateOfFlags e.modifierFlags) j k s hj
      have hidx : (processFlagsSeq mods (e :: rest))[j + 1]? =
          (processFlagsSeq (stateOfFlags e.modifierFlags) rest)[j]? := by
        simp [processFlagsSeq, flagsChanged_snd]
      rw [hidx, prevStateAt_cons, flagAt_cons_succ]
      exact h

/-- Claim C3: over every sequence of native modifier-flag snapshots, starting
from the all-released initial statics, the flags-changed translation emits for
each modifier key exactly one press event per 0-to-1 transition of its flag
between consecutive snapshots, exactly one release event per 1-to-0
transition, and zero events when the flag is unchanged. -/
theorem claim_C3 :
    ∀ (es : List NSEvent) (i : Nat) (k : ModKey), i < es.length →
      (countKey ((processFlagsSeq initialModifierState es)[i]?.getD [])
          ElementState.Pressed (vkOf k) =
        if prevFlagAt es i k = false ∧ flagAt es i k = true then 1 else 0) ∧
      (countKey ((processFlagsSeq initialModifierState es)[i]?.getD [])
          ElementState.Released (vkOf k) =
        if prevFlagAt es i k = true ∧ flagAt es i k = false then 1 else 0) := by
  intro es i k hi
  have hprev : prevStateAt es initialModifierState i k = prevFlagAt es i k := by
    cases i with
    | zero => cases k <;> rfl
    | succ j => rfl
  have hp := processFlagsSeq_count es initialModifierState i k ElementState.Pressed hi
  have hr := processFlagsSeq_count es initialModifierState i k ElementState.Released hi
  constructor
  · rw [hp, hprev]
    simp
  · rw [hr, hprev]
    simp

/-- Witness for C3 at a concrete one-snapshot sequence turning shift on. -/
theorem claim_C3_witness :
    countKey ((processFlagsSeq initialModifierState [flagsOnEvent])[0]?.getD [])
        ElementState.Pressed (vkOf ModKey.shiftKey) =
      (if prevFlagAt [flagsOnEvent] 0 ModKey.shiftKey = false ∧
          flagAt [flagsOnEvent] 0 ModKey.shiftKey = true then 1 else 0) :=
  (claim_C3 [flagsOnEvent] 0 ModKey.shiftKey (by decide)).1

theorem NSEventToEvent_keyDown (vkmap : Nat → Option VirtualKeyCode)
    (mods : ModifierState) (e : NSEvent)
    (he : e.eventType = NSEventType.NSKeyDown) :
    NSEventToEvent vkmap mods (some e) =
      ⟨(keyDownEvents vkmap e).head?, (keyDownEvents vkmap e).tail, mods⟩ := by
  simp [NSEventToEvent, he]

theorem keyDownEvents_ne_nil (vkmap : Nat → Option VirtualKeyCode) (e : NSEvent) :
    keyDownEvents vkmap e ≠ [] := by
  simp [keyDownEvents]

theorem keyDownEvents_length (vkmap : Nat → Option VirtualKeyCode) (e : NSEvent) :
    (keyDownEvents vkmap e).length = e.characters.length + 1 := by
  simp [keyDownEvents]

theorem pollSeq_succ (vkmap : Nat → Option VirtualKeyCode) (st : CocoaWindowState)
    (native : List NSEvent) (n : Nat) :
    pollSeq vkmap st native (n + 1) =
      match pollNext vkmap st native with
      | (some ev, st', native') => ev :: pollSeq vkmap st' native' n
      | (none, st', native') => pollSeq vkmap st' native' n := rfl

theorem pollSeq_drain (vkmap : Nat → Option VirtualKeyCode) (l : List Event)
    (mods : ModifierState) (native : List NSEvent) (n : Nat) :
    pollSeq vkmap ⟨l, mods⟩ native (l.length + n) =
      l ++ pollSeq vkmap ⟨[], mods⟩ native n := by
  induction l with
  | nil => simp
  | cons ev rest ih =>
    have h1 : (ev :: rest).length + n = (rest.length + n) + 1 := by
      simp [List.length_cons]
      omega
    rw [h1, pollSeq_succ]
    show ev :: pollSeq vkmap ⟨rest, mods⟩ native (rest.length + n) =
      (ev :: rest) ++ pollSeq vkmap ⟨[], mods⟩ native n
    rw [List.cons_append, ih]

theorem pollSeq_keyDown (vkmap : Nat → Option VirtualKeyCode) :
    ∀ (es : List NSEvent) (mods : ModifierState),
      (∀ x ∈ es, x.eventType = NSEventType.NSKeyDown) →
      pollSeq vkmap ⟨[], mods⟩ es (totalKeyDownGen es) =
        (es.map (fun x => keyDownEvents vkmap x)).flatten := by
  intro es
  induction es with
  | nil =>
    intro mods h
    rfl
  | cons e rest ih =>
    intro mods h
    have he : e.eventType = NSEventType.NSKeyDown := h e (by simp)
    have hrest : ∀ x ∈ rest, x.eventType = NSEventType.NSKeyDown :=
      fun x hx => h x (by simp [hx])
    obtain ⟨g0, gt, hg⟩ := List.exists_cons_of_ne_nil (keyDownEvents_ne_nil vkmap e)
    have hlen : gt.length = e.characters.length := by
      have h2 := keyDownEvents_length vkmap e
      rw [hg] at h2
      simpa using h2
    have hfuel : totalKeyDownGen (e :: rest) = (gt.length + totalKeyDownGen rest) + 1 := by
      simp [totalKeyDownGen, hlen]
      omega
    rw [hfuel, pollSeq_succ]
    have hpoll : pollNext vkmap ⟨[], mods⟩ (e :: rest) = (some g0, ⟨gt, mods⟩, rest) := by
      simp [pollNext, NSEventToEvent_keyDown vkmap mods e he, hg]
    rw [hpoll]
    show g0 :: pollSeq vkmap ⟨gt, mods⟩ rest (gt.length + totalKeyDownGen rest) =
      ((e :: rest).map (fun x => keyDownEvents vkmap x)).flatten
    rw [pollSeq_drain, ih mods hrest]
    simp [hg]

/-- Claim C4: a native key-down event whose character payload decodes to N
characters generates exactly N received-character events followed by one
key-pressed event; the first generated event is the one the translation
returns, the rest land in the FIFO queue, and over any run of key-down events
the poll iterator delivers the events in generation order, draining the queue
completely before the next native event is translated. -/
theorem claim_C4 :
    ∀ (vkmap : Nat → Option VirtualKeyCode) (mods : ModifierState) (e : NSEvent),
      e.eventType = NSEventType.NSKeyDown →
      keyDownEvents vkmap e =
        e.characters.map Event.ReceivedCharacter ++
          [Event.KeyboardInput ElementState.Pressed (e.keyCode % 256)
            (vkmap e.keyCode)] ∧
      NSEventToEvent vkmap mods (some e) =
        ⟨(keyDownEvents vkmap e).head?, (keyDownEvents vkmap e).tail, mods⟩ ∧
      (∀ es : List NSEvent, (∀ x ∈ es, x.eventType = NSEventType.NSKeyDown) →
        pollSeq vkmap ⟨[], mods⟩ es (totalKeyDownGen es) =
          (es.map (fun x => keyDownEvents vkmap x)).flatten) := by
  intro vkmap mods e he
  exact ⟨rfl, NSEventToEvent_keyDown vkmap mods e he,
    fun es hes => pollSeq_keyDown vkmap es mods hes⟩

/-- Witness for C4 at a concrete two-character key-down event. -/
theorem claim_C4_witness :
    pollSeq (fun _ => none) ⟨[], initialModifierState⟩ [kdEvent]
        (totalKeyDownGen [kdEvent]) =
      ([kdEvent].map (fun x => keyDownEvents (fun _ => none) x)).flatten :=
  (claim_C4 (fun _ => none) initialModifierState kdEvent rfl).2.2 [kdEvent]
    (by
      intro x hx
      rw [List.mem_singleton] at hx
      subst hx
      rfl)

end Glutin
